import Mathlib

/-!
Verification development for the HealthLingo answer-resolution pipeline
(`app.py`): knowledge-base lookup, generation-client retry/backup logic,
language detection, translation fallback, speech-locale mapping, and the
orchestrator that sequences them.

Strings are modelled as `List Char`; remote services (the generation
client, the statistical language detector, the translation service) are
modelled as oracle functions passed explicitly, with `Option`/sum-style
results standing for success or a raised exception.
-/

/-- Python strings, modelled as lists of characters. -/
abbrev Str := List Char

/-- Coerce a Lean string literal to the `Str` model. -/
def strL (s : String) : Str := s.data

/-- Python `str.lower()` (restricted to the ASCII case mapping). -/
def lower (s : Str) : Str := s.map Char.toLower

/-- Python `in` on strings: `pyIn pat s` is true when `pat` occurs as a
contiguous substring of `s`. -/
def pyIn (pat : Str) : Str → Bool
  | [] => pat.isEmpty
  | c :: t => pat.isPrefixOf (c :: t) || pyIn pat t

/-- Whitespace characters removed by Python `str.strip()`. -/
def isPySpace (c : Char) : Bool :=
  c.isWhitespace || c.toNat = 11 || c.toNat = 12

/-- Python `str.strip()`: remove whitespace from both ends. -/
def pyStrip (s : Str) : Str :=
  (s.dropWhile isPySpace).rdropWhile isPySpace

/-- Python truthiness of an optional string: `None` and `""` are falsy. -/
def pyFalsy : Option Str → Bool
  | none => true
  | some s => s.isEmpty

/-- Python `a or b` where `a` is an optional string and `b` a string:
yields `b` when `a` is falsy, otherwise the string in `a`. -/
def pyOrStr (a : Option Str) (b : Str) : Str :=
  match a with
  | none => b
  | some s => if s.isEmpty then b else s

/-! ## Knowledge base (`faqs.json` entries and `find_answer_from_faqs`) -/

/-- One value of the loaded `faqs` mapping: either a JSON object with a
keyword list and an optional `info` field (absent `info` modelled as
`none`, mirroring `entry.get("info")`), or a raw string entry. -/
inductive FaqEntry where
  | dict (keywords : List Str) (info : Option Str)
  | raw (s : Str)
deriving DecidableEq

/-- `entry.get("keywords", []) if isinstance(entry, dict) else []`. -/
def entryKeywords : FaqEntry → List Str
  | .dict kws _ => kws
  | .raw _ => []

/-- `entry.get("info") if isinstance(entry, dict) else entry`. -/
def entryInfo : FaqEntry → Option Str
  | .dict _ info => info
  | .raw s => some s

/-- An entry matches a query when some keyword, lowercased, is a
substring of the lowercased query. -/
def entryMatches (user_query : Str) (e : FaqEntry) : Bool :=
  (entryKeywords e).any fun kw => pyIn (lower kw) (lower user_query)

/-- `find_answer_from_faqs`: walk the knowledge base in configured order
and return the first matching entry's info. -/
def find_answer_from_faqs (faqs : List (Str × FaqEntry)) (user_query : Str) :
    Option Str :=
  match faqs with
  | [] => none
  | (_, entry) :: rest =>
    if entryMatches user_query entry then entryInfo entry
    else find_answer_from_faqs rest user_query

/-! ## Generation client (`fetch_from_gemini`) -/

/-- Outcome of one call to the remote generation service: a returned
text payload, or a raised exception carrying its string form. -/
inductive GenResult where
  | ok (text : Str)
  | err (msg : Str)
deriving DecidableEq

/-- True when the call raised. -/
def isErr : GenResult → Bool
  | .ok _ => false
  | .err _ => true

/-- True when the call raised with a service-unavailable error
(message contains the substring 503). -/
def is503err : GenResult → Bool
  | .ok _ => false
  | .err e => pyIn (strL "503") e

/-- The fixed instruction template built around the raw user query. -/
def gemini_prompt (user_query : Str) : Str :=
  strL "\nYou are a concise accurate health assistant. The user asked: " ++
    user_query ++
    strL "\n\nProvide reliable, high-level information about causes, prevention, and remedies\n(if disease-related), in clear English. If the question is not health-related,\npolitely say so.\n"

/-- Result string when the retry loop body never runs. -/
def couldNotFetch : Str := strL "⚠ Could not fetch response from Gemini."

/-- Error description string returned when the backup model also fails. -/
def geminiErrStr (e2 : Str) : Str :=
  strL "⚠ Error fetching from Gemini: " ++ e2

/-- Trace of one run of the generation client: the returned string, the
prompts sent to the primary model (in order), the number of fixed
1.5-second backoff sleeps performed, and the prompts sent to the backup
model. -/
structure FetchTrace where
  result : Str
  primaryPrompts : List Str
  sleeps : Nat
  backupPrompts : List Str
deriving DecidableEq

/-- Account one 503 backoff-and-retry step: the primary model was
called once more, one fixed 1.5-second sleep was performed, and the
rest of the trace comes from the remaining attempts. -/
def consRetry (prompt : Str) (r : FetchTrace) : FetchTrace :=
  ⟨r.result, prompt :: r.primaryPrompts, r.sleeps + 1, r.backupPrompts⟩

/-- The single backup-model call: its stripped text on success, the
error description string when it also raises; either way the primary
model was called once at this attempt and the backup exactly once. -/
def backupTrace (prompt : Str) : GenResult → FetchTrace
  | .ok t => ⟨pyStrip t, [prompt], 0, [prompt]⟩
  | .err e2 => ⟨geminiErrStr e2, [prompt], 0, [prompt]⟩

/-- The retry loop of `fetch_from_gemini`: `fuel` is the number of loop
iterations still available (`retries - attempt`).  A primary success
returns its stripped text; a 503 failure with budget left sleeps and
retries; any other failure (or the last attempt) calls the backup model
once. -/
def fetchAux (primary : Str → Nat → GenResult) (backup : Str → GenResult)
    (prompt : Str) (retries : Nat) : Nat → Nat → FetchTrace
  | 0, _ => ⟨couldNotFetch, [], 0, []⟩
  | fuel + 1, attempt =>
    match primary prompt attempt with
    | .ok t => ⟨pyStrip t, [prompt], 0, []⟩
    | .err e =>
      if pyIn (strL "503") e = true ∧ attempt + 1 < retries then
        consRetry prompt (fetchAux primary backup prompt retries fuel (attempt + 1))
      else backupTrace prompt (backup prompt)

/-- `fetch_from_gemini(user_query, retries)`: build the prompt and run
the retry loop from attempt 0. -/
def fetch_from_gemini (user_query : Str) (primary : Str → Nat → GenResult)
    (backup : Str → GenResult) (retries : Nat) : FetchTrace :=
  fetchAux primary backup (gemini_prompt user_query) retries retries 0

/-! ## Language detector (`detect_language`) -/

/-- One step of the Unicode-script loop body of `detect_language`: the
language associated with the first script range containing the
character, checked in source order. -/
def scriptOf (c : Char) : Option Str :=
  if 0x0900 ≤ c.toNat ∧ c.toNat ≤ 0x097F then some (strL "hi")
  else if 0x0980 ≤ c.toNat ∧ c.toNat ≤ 0x09FF then some (strL "bn")
  else if 0x0B00 ≤ c.toNat ∧ c.toNat ≤ 0x0B7F then some (strL "or")
  else if 0x0A80 ≤ c.toNat ∧ c.toNat ≤ 0x0AFF then some (strL "gu")
  else if 0x0B80 ≤ c.toNat ∧ c.toNat ≤ 0x0BFF then some (strL "ta")
  else if 0x0C00 ≤ c.toNat ∧ c.toNat ≤ 0x0C7F then some (strL "te")
  else if 0x0C80 ≤ c.toNat ∧ c.toNat ≤ 0x0CFF then some (strL "kn")
  else if 0x0D00 ≤ c.toNat ∧ c.toNat ≤ 0x0D7F then some (strL "ml")
  else if 0x0600 ≤ c.toNat ∧ c.toNat ≤ 0x06FF then some (strL "ar")
  else if 0x0400 ≤ c.toNat ∧ c.toNat ≤ 0x04FF then some (strL "ru")
  else none

/-- The character scan of `detect_language`: return the language of the
first character falling in a recognized script range. -/
def scriptDetect : Str → Option Str
  | [] => none
  | c :: t =>
    match scriptOf c with
    | some l => some l
    | none => scriptDetect t

/-- Count of characters that are ASCII and alphabetic. -/
def countAsciiAlpha (s : Str) : Nat :=
  (s.filter fun c => decide (c.toNat < 128) && c.isAlpha).length

/-- `detect_language`: strip the text; empty input detects as en.
Otherwise, when the statistical detector (`ld`) is importable, call it;
a string result of length at least 2 is returned lowercased, any other
outcome (exception or short result) falls through.  The fallthrough
scans for a recognized Unicode script and otherwise returns en (the
ASCII-majority branch and the default both yield en). -/
def detect_language (ld : Option (Str → Option Str)) (text : Str) : Str :=
  let t := pyStrip text
  if t.isEmpty then strL "en"
  else
    let heur : Str :=
      match scriptDetect t with
      | some l => l
      | none =>
        if t.length ≤ 2 * countAsciiAlpha t then strL "en" else strL "en"
    match ld with
    | some f =>
      match f t with
      | some lang => if 2 ≤ lang.length then lower lang else heur
      | none => heur
    | none => heur

/-- The allow-list of supported language codes named by the
specification. -/
def allowList : List Str :=
  [strL "en", strL "hi", strL "or", strL "bn", strL "gu", strL "ta",
   strL "te", strL "kn", strL "ml", strL "ar", strL "ru", strL "es"]

/-! ## Speech locale (`tts_locale_for`) -/

/-- The static language-to-locale table of `tts_locale_for`. -/
def tts_mapping : List (Str × Str) :=
  [(strL "hi", strL "hi-IN"), (strL "or", strL "or-IN"),
   (strL "bn", strL "bn-IN"), (strL "te", strL "te-IN"),
   (strL "ta", strL "ta-IN"), (strL "kn", strL "kn-IN"),
   (strL "ml", strL "ml-IN"), (strL "gu", strL "gu-IN"),
   (strL "en", strL "en-US"), (strL "ar", strL "ar-SA"),
   (strL "ru", strL "ru-RU"), (strL "es", strL "es-ES")]

/-- `tts_locale_for`: `mapping.get(lang_code, lang_code)` — a code
absent from the table is returned unchanged. -/
def tts_locale_for (lang_code : Str) : Str :=
  (tts_mapping.lookup lang_code).getD lang_code

/-! ## Translator (`translate_text`) -/

/-- One recorded call to the remote translation service: the source
language passed, the target language, and the text. -/
structure TransCall where
  src : Str
  tgt : Str
  txt : Str
deriving DecidableEq

/-- `translate_text`, instrumented with the list of translation-service
calls made.  The oracle `tr src tgt txt` yields the translated text or
`none` for a raised exception.  Empty text and English targets (after
lowercasing, with empty target defaulting to en) return the text with
no call; otherwise the service is called with automatic source
detection, retried once with explicit en source on failure, and the
original text is returned when both calls fail. -/
def translate_textT (tr : Str → Str → Str → Option Str)
    (text target_lang : Str) : Str × List TransCall :=
  if text.isEmpty then (text, [])
  else
    let t := lower (if target_lang.isEmpty then strL "en" else target_lang)
    if t = strL "en" ∨ t = strL "eng" ∨ t = strL "english" then (text, [])
    else
      match tr (strL "auto") t text with
      | some r => (r, [⟨strL "auto", t, text⟩])
      | none =>
        match tr (strL "en") t text with
        | some r => (r, [⟨strL "auto", t, text⟩, ⟨strL "en", t, text⟩])
        | none => (text, [⟨strL "auto", t, text⟩, ⟨strL "en", t, text⟩])

/-- `translate_text`: the returned string of the instrumented model. -/
def translate_text (tr : Str → Str → Str → Option Str)
    (text target_lang : Str) : Str :=
  (translate_textT tr text target_lang).1

/-! ## Orchestrator (the `if user_input:` block of the app) -/

/-- The fixed apology string substituted when both the knowledge base
and the model fail. -/
def apology : Str := strL "Sorry, I cannot fetch this right now."

/-- Provenance of the final English answer. -/
inductive Source where
  | knowledge_base
  | language_model
  | error_fallback
deriving DecidableEq

/-- Modelled from the spec: the code does not record answer provenance,
so the `source` field of a ResolvedAnswer is reconstructed per the
specification's data model — `error_fallback` when the apology was
substituted after the model result was discarded, `knowledge_base` when
the answer came from a lookup, `language_model` otherwise. -/
def answerSource (firstLookup : Option Str) (failed : Bool)
    (relookup : Option Str) : Source :=
  if failed then
    if pyFalsy relookup then .error_fallback else .knowledge_base
  else if pyFalsy firstLookup then .language_model
  else .knowledge_base

/-- The orchestrator's output for one query, with instrumentation:
whether the generation client was invoked and which translation-service
calls were made. -/
structure PipelineResult where
  detected_lang : Str
  english_text : Str
  localized_text : Str
  speech_locale : Str
  source : Source
  geminiCalled : Bool
  transCalls : List TransCall
deriving DecidableEq

/-- The per-query pipeline: detect the language; look up the knowledge
base; on a falsy lookup fetch from the generation client (retries = 2);
discard a falsy result or one containing the substring Error in favour
of a re-lookup or the apology; translate unless the detected language
is en or eng; compose the speech locale. -/
def run_pipeline (faqs : List (Str × FaqEntry))
    (ld : Option (Str → Option Str))
    (primary : Str → Nat → GenResult) (backup : Str → GenResult)
    (tr : Str → Str → Str → Option Str) (user_input : Str) :
    PipelineResult :=
  let detected := detect_language ld user_input
  let a1 := find_answer_from_faqs faqs user_input
  let gemini : Option FetchTrace :=
    if pyFalsy a1 then some (fetch_from_gemini user_input primary backup 2)
    else none
  let a2 : Option Str :=
    match gemini with
    | some ft => some ft.result
    | none => a1
  let failed : Bool := pyFalsy a2 || pyIn (strL "Error") (a2.getD [])
  let english : Str :=
    if failed then pyOrStr (find_answer_from_faqs faqs user_input) apology
    else a2.getD []
  let loc : Str × List TransCall :=
    if detected = strL "en" ∨ detected = strL "eng" then (english, [])
    else translate_textT tr english detected
  { detected_lang := detected
    english_text := english
    localized_text := loc.1
    speech_locale := tts_locale_for detected
    source := answerSource a1 failed (find_answer_from_faqs faqs user_input)
    geminiCalled := gemini.isSome
    transCalls := loc.2 }

/-! ## Helper lemmas -/

lemma isPrefixOf_append_self : ∀ (xs ys : Str), xs.isPrefixOf (xs ++ ys) = true
  | [], _ => by simp [List.isPrefixOf]
  | x :: xs, ys => by
    simp [List.isPrefixOf, isPrefixOf_append_self xs ys]

lemma pyIn_append_left (pat rest : Str) : pyIn pat (pat ++ rest) = true := by
  cases pat with
  | nil => cases rest <;> simp [pyIn, List.isPrefixOf]
  | cons c t =>
    simp only [List.cons_append, pyIn]
    rw [show (c :: t) = (c :: t) from rfl]
    have h := isPrefixOf_append_self (c :: t) rest
    simp only [List.cons_append] at h
    simp [h]

lemma pyIn_mid : ∀ (pre pat rest : Str), pyIn pat (pre ++ (pat ++ rest)) = true
  | [], pat, rest => by simpa using pyIn_append_left pat rest
  | c :: pre, pat, rest => by
    have h := pyIn_mid pre pat rest
    simp [pyIn, h]

lemma pyIn_geminiErr (e2 : Str) : pyIn (strL "Error") (geminiErrStr e2) = true := by
  have h0 : strL "⚠ Error fetching from Gemini: "
      = strL "⚠ " ++ (strL "Error" ++ strL " fetching from Gemini: ") := by decide
  have h : geminiErrStr e2
      = strL "⚠ " ++ (strL "Error" ++ (strL " fetching from Gemini: " ++ e2)) := by
    rw [geminiErrStr, h0]
    simp [List.append_assoc]
  rw [h]
  exact pyIn_mid _ _ _

lemma pyOrStr_of_falsy {a : Option Str} (b : Str) (h : pyFalsy a = true) :
    pyOrStr a b = b := by
  cases a with
  | none => rfl
  | some s =>
    simp only [pyFalsy] at h
    simp [pyOrStr, h]

lemma pyStrip_eq_nil {s : Str} (h : ∀ c ∈ s, isPySpace c = true) :
    pyStrip s = [] := by
  have h1 : s.dropWhile isPySpace = [] := List.dropWhile_eq_nil_iff.mpr h
  simp [pyStrip, h1, List.rdropWhile]

set_option maxHeartbeats 2000000 in
lemma scriptOf_mem {c : Char} {l : Str} (h : scriptOf c = some l) :
    l ∈ allowList := by
  unfold scriptOf at h
  split_ifs at h
  all_goals injection h with h2
  all_goals subst h2
  all_goals decide

lemma scriptDetect_mem : ∀ {t : Str} {l : Str},
    scriptDetect t = some l → l ∈ allowList := by
  intro t
  induction t with
  | nil => intro l h; simp [scriptDetect] at h
  | cons c t ih =>
    intro l h
    unfold scriptDetect at h
    cases hc : scriptOf c with
    | some x =>
      rw [hc] at h
      cases h
      exact scriptOf_mem hc
    | none =>
      rw [hc] at h
      exact ih h

lemma fetchAux_fail (primary : Str → Nat → GenResult) (backup : Str → GenResult)
    (prompt : Str) (retries : Nat) :
    ∀ (d attempt fuel : Nat), attempt + fuel = retries → attempt + d < retries →
    (∀ j, attempt ≤ j → j < attempt + d → is503err (primary prompt j) = true) →
    isErr (primary prompt (attempt + d)) = true →
    (is503err (primary prompt (attempt + d)) = false ∨ attempt + d + 1 = retries) →
    fetchAux primary backup prompt retries fuel attempt =
      ⟨(backupTrace prompt (backup prompt)).result,
        List.replicate (d + 1) prompt, d, [prompt]⟩ := by
  intro d
  induction d with
  | zero =>
    intro attempt fuel hf hlt h503 herr hlast
    cases fuel with
    | zero => omega
    | succ f =>
      rw [fetchAux]
      cases hp : primary prompt attempt with
      | ok t =>
        rw [show attempt + 0 = attempt from rfl, hp] at herr
        simp [isErr] at herr
      | err e =>
        have hcond : ¬ (pyIn (strL "503") e = true ∧ attempt + 1 < retries) := by
          rcases hlast with h | h
          · rw [show attempt + 0 = attempt from rfl, hp] at h
            simp only [is503err] at h
            intro hc
            rw [hc.1] at h
            simp at h
          · intro hc
            omega
        dsimp only
        rw [if_neg hcond]
        cases hb : backup prompt <;> simp [backupTrace, List.replicate]
  | succ d ih =>
    intro attempt fuel hf hlt h503 herr hlast
    cases fuel with
    | zero => omega
    | succ f =>
      have h0 : is503err (primary prompt attempt) = true :=
        h503 attempt le_rfl (by omega)
      cases hp : primary prompt attempt with
      | ok t =>
        rw [hp] at h0
        simp [is503err] at h0
      | err e =>
        rw [hp] at h0
        simp only [is503err] at h0
        rw [fetchAux]
        rw [hp]
        dsimp only
        rw [if_pos (show pyIn (strL "503") e = true ∧ attempt + 1 < retries
          from ⟨h0, by omega⟩)]
        have harith : attempt + 1 + d = attempt + (d + 1) := by omega
        have hrec := ih (attempt + 1) f (by omega) (by omega)
          (fun j hj1 hj2 => h503 j (by omega) (by omega))
          (by rw [harith]; exact herr)
          (by
            rw [harith]
            rcases hlast with h | h
            · exact Or.inl h
            · exact Or.inr (by omega))
        rw [hrec]
        simp [consRetry, List.replicate]

lemma fetchAux_backup_err (primary : Str → Nat → GenResult)
    (backup : Str → GenResult) (prompt : Str) (retries : Nat) (e2 : Str)
    (hb : backup prompt = .err e2) :
    ∀ (fuel attempt : Nat),
      (fetchAux primary backup prompt retries fuel attempt).backupPrompts ≠ [] →
      (fetchAux primary backup prompt retries fuel attempt).result = geminiErrStr e2 := by
  intro fuel
  induction fuel with
  | zero =>
    intro attempt h
    simp [fetchAux] at h
  | succ f ih =>
    intro attempt h
    rw [fetchAux] at h ⊢
    cases hp : primary prompt attempt with
    | ok t =>
      rw [hp] at h
      simp at h
    | err e =>
      rw [hp] at h
      dsimp only at h ⊢
      by_cases hc : pyIn (strL "503") e = true ∧ attempt + 1 < retries
      · rw [if_pos hc] at h ⊢
        simp only [consRetry] at h ⊢
        exact ih (attempt + 1) h
      · rw [if_neg hc, hb]
        rfl

lemma isEmpty_false_of_ne {s : Str} (h : s ≠ []) : s.isEmpty = false := by
  cases s with
  | nil => exact absurd rfl h
  | cons c t => rfl

lemma find_answer_eq (faqs : List (Str × FaqEntry)) (q : Str) :
    find_answer_from_faqs faqs q =
      (faqs.find? fun p => entryMatches q p.2).bind fun p => entryInfo p.2 := by
  induction faqs with
  | nil => rfl
  | cons p rest ih =>
    obtain ⟨topic, entry⟩ := p
    rw [find_answer_from_faqs]
    by_cases hm : entryMatches q entry = true
    · simp [List.find?, hm]
    · have hf : List.find? (fun p => entryMatches q p.2) ((topic, entry) :: rest)
          = List.find? (fun p => entryMatches q p.2) rest :=
        List.find?_cons_of_neg _ (by simpa using hm)
      rw [if_neg (by simpa using hm), hf]
      exact ih

lemma fetch2_all_err (q : Str) (primary : Str → Nat → GenResult)
    (backup : Str → GenResult) (e2 : Str)
    (hp : ∀ p n, isErr (primary p n) = true)
    (hb : backup (gemini_prompt q) = .err e2) :
    (fetch_from_gemini q primary backup 2).result = geminiErrStr e2 := by
  rw [fetch_from_gemini]
  by_cases h0 : is503err (primary (gemini_prompt q) 0) = true
  · have hsp := fetchAux_fail primary backup (gemini_prompt q) 2 1 0 2
      (by omega) (by omega)
      (fun j hj1 hj2 => by
        have hj : j = 0 := by omega
        rw [hj]
        exact h0)
      (hp (gemini_prompt q) 1)
      (Or.inr rfl)
    rw [hsp, hb]
    rfl
  · have hsp := fetchAux_fail primary backup (gemini_prompt q) 2 0 0 2
      (by omega) (by omega)
      (fun j hj1 hj2 => by omega)
      (hp (gemini_prompt q) 0)
      (Or.inl (by simpa using h0))
    rw [hsp, hb]
    rfl

lemma pyFalsy_some (s : Str) : pyFalsy (some s) = s.isEmpty := rfl

lemma pyFalsy_none : pyFalsy none = true := rfl

lemma translate_textT_alias (tr : Str → Str → Str → Option Str)
    (text target_lang : Str)
    (h : target_lang = strL "en" ∨ target_lang = strL "eng" ∨
      target_lang = strL "english") :
    translate_textT tr text target_lang = (text, []) := by
  rw [translate_textT]
  by_cases he : text.isEmpty = true
  · rw [if_pos he]
  · rw [if_neg he]
    rcases h with h | h | h <;> rw [h] <;> rfl

lemma translate_textT_nil (tr : Str → Str → Str → Option Str)
    (target_lang : Str) :
    translate_textT tr [] target_lang = ([], []) := rfl

/-! ## Claim theorems -/

/-- C1: for every knowledge base and query, `find_answer_from_faqs`
returns the info of the first entry (in configured order) having a
keyword whose lowercased form is a substring of the lowercased query,
and no match when no keyword matches or the knowledge base is empty. -/
theorem find_answer_from_faqs_first_match (faqs : List (Str × FaqEntry))
    (user_query : Str) :
    find_answer_from_faqs faqs user_query =
      (faqs.find? fun p => entryMatches user_query p.2).bind
        fun p => entryInfo p.2 :=
  find_answer_eq faqs user_query

/-- C9: for every input that is empty or consists only of whitespace,
`detect_language` returns the default code en, whatever the statistical
detector would do. -/
theorem detect_language_blank_en (ld : Option (Str → Option Str))
    (text : Str) (h : ∀ c ∈ text, isPySpace c = true) :
    detect_language ld text = strL "en" := by
  rw [detect_language]
  rw [pyStrip_eq_nil h]
  rfl

/-- Witness for C9 at the concrete whitespace input of two spaces and a
tab. -/
theorem detect_language_blank_en_witness :
    detect_language none (strL " \t ") = strL "en" :=
  detect_language_blank_en none (strL " \t ") (by decide)

/-- C3 counterexample: with a statistical detector returning fr — a
code outside the allow-list — `detect_language` returns fr instead of
rejecting it, so the claimed allow-list filtering does not exist in the
code. -/
theorem detect_language_allowlist_cex :
    detect_language (some fun _ => some (strL "fr")) (strL "bonjour")
        = strL "fr" ∧
      strL "fr" ∉ allowList := by
  constructor
  · decide
  · decide

/-- C3 (amended): every result of `detect_language` is either one of
the allow-listed codes (heuristic and default paths) or exactly the
lowercased statistical-detector output, which is accepted unchecked
whenever it is a string of length at least 2. -/
theorem detect_language_statistical_passthrough
    (ld : Option (Str → Option Str)) (text : Str) :
    detect_language ld text ∈ allowList ∨
      (∃ f lang, ld = some f ∧ f (pyStrip text) = some lang ∧
        2 ≤ lang.length ∧ detect_language ld text = lower lang) := by
  rw [detect_language]
  by_cases hempty : (pyStrip text).isEmpty = true
  · rw [if_pos hempty]
    left
    decide
  · rw [if_neg hempty]
    have hheur :
        (match scriptDetect (pyStrip text) with
          | some l => l
          | none =>
            if (pyStrip text).length ≤ 2 * countAsciiAlpha (pyStrip text)
            then strL "en" else strL "en") ∈ allowList := by
      cases hs : scriptDetect (pyStrip text) with
      | some l =>
        dsimp only
        exact scriptDetect_mem hs
      | none =>
        dsimp only
        by_cases hll : (pyStrip text).length ≤ 2 * countAsciiAlpha (pyStrip text)
        · rw [if_pos hll]; decide
        · rw [if_neg hll]; decide
    cases ld with
    | none => left; exact hheur
    | some f =>
      dsimp only
      cases hf : f (pyStrip text) with
      | none => left; exact hheur
      | some lang =>
        dsimp only
        by_cases hlen : 2 ≤ lang.length
        · rw [if_pos hlen]
          right
          exact ⟨f, lang, rfl, hf, hlen, rfl⟩
        · rw [if_neg hlen]
          left
          exact hheur

/-- C8 counterexample: the code fr is absent from the static table, yet
`tts_locale_for` returns fr itself, not the claimed default en-US. -/
theorem tts_locale_default_cex :
    tts_locale_for (strL "fr") ≠ strL "en-US" ∧
      tts_mapping.lookup (strL "fr") = none := by
  constructor
  · decide
  · decide

/-- C8 (amended): the speech-locale composition is the static table
lookup, with table entries such as hi to hi-IN, ar to ar-SA and en to
en-US, and every code absent from the table is returned unchanged
(passed through) rather than mapped to a default. -/
theorem tts_locale_spec :
    (∀ c : Str, tts_mapping.lookup c = none → tts_locale_for c = c) ∧
      tts_locale_for (strL "hi") = strL "hi-IN" ∧
      tts_locale_for (strL "ar") = strL "ar-SA" ∧
      tts_locale_for (strL "en") = strL "en-US" := by
  refine ⟨fun c h => ?_, by decide, by decide, by decide⟩
  rw [tts_locale_for, h]
  rfl

/-- Witness for C8 (amended) at the concrete absent code fr and the
present code hi. -/
theorem tts_locale_spec_witness :
    tts_locale_for (strL "fr") = strL "fr" ∧
      tts_locale_for (strL "hi") = strL "hi-IN" :=
  ⟨tts_locale_spec.1 (strL "fr") (by decide), tts_locale_spec.2.1⟩

/-- C7: `translate_text` is the identity with no translation-service
call when the target is en, eng or english, and on empty text for every
target. -/
theorem translate_text_identity_en (tr : Str → Str → Str → Option Str)
    (text target_lang : Str) :
    ((target_lang = strL "en" ∨ target_lang = strL "eng" ∨
        target_lang = strL "english") →
      translate_textT tr text target_lang = (text, [])) ∧
    (text = [] → translate_textT tr text target_lang = (text, [])) := by
  constructor
  · exact translate_textT_alias tr text target_lang
  · intro h
    rw [h]
    exact translate_textT_nil tr target_lang

/-- Witness for C7 at a nonempty text with target en and at the empty
text with target hi. -/
theorem translate_text_identity_en_witness :
    translate_textT (fun _ _ _ => some (strL "x")) (strL "hello") (strL "en")
        = (strL "hello", []) ∧
      translate_textT (fun _ _ _ => some (strL "x")) [] (strL "hi")
        = ([], []) :=
  ⟨(translate_text_identity_en (fun _ _ _ => some (strL "x"))
      (strL "hello") (strL "en")).1 (Or.inl rfl),
   (translate_text_identity_en (fun _ _ _ => some (strL "x"))
      [] (strL "hi")).2 rfl⟩

/-- C6: for nonempty text and a non-English target, when the
translation call with automatic source detection fails, exactly one
retry is made with explicit en source, and the result is that retry's
text or — when it also fails — the original text unchanged; the
function always returns rather than raising. -/
theorem translate_text_retry_then_original (tr : Str → Str → Str → Option Str)
    (text target_lang : Str)
    (htext : text ≠ [])
    (htgt : target_lang ≠ [])
    (h1 : lower target_lang ≠ strL "en")
    (h2 : lower target_lang ≠ strL "eng")
    (h3 : lower target_lang ≠ strL "english")
    (hauto : tr (strL "auto") (lower target_lang) text = none) :
    translate_textT tr text target_lang =
      ((tr (strL "en") (lower target_lang) text).getD text,
       [⟨strL "auto", lower target_lang, text⟩,
        ⟨strL "en", lower target_lang, text⟩]) := by
  rw [translate_textT]
  rw [if_neg (by simp [isEmpty_false_of_ne htext])]
  have ht : (if target_lang.isEmpty then strL "en" else target_lang)
      = target_lang := by
    rw [if_neg (by simp [isEmpty_false_of_ne htgt])]
  rw [ht]
  rw [if_neg (by
    intro hcon
    rcases hcon with h | h | h
    · exact h1 h
    · exact h2 h
    · exact h3 h)]
  rw [hauto]
  cases he : tr (strL "en") (lower target_lang) text with
  | some r => rfl
  | none => rfl

/-- Witness for C6 with a translation oracle that always fails: the
original text is returned after the auto call and the en retry. -/
theorem translate_text_retry_then_original_witness :
    translate_textT (fun _ _ _ => none) (strL "hello") (strL "hi")
      = (strL "hello",
         [⟨strL "auto", strL "hi", strL "hello"⟩,
          ⟨strL "en", strL "hi", strL "hello"⟩]) := by
  have h := translate_text_retry_then_original (fun _ _ _ => none)
    (strL "hello") (strL "hi") (by decide) (by decide) (by decide)
    (by decide) (by decide) rfl
  simpa using h

/-- C4: for every query and oracle behaviour, (a) when the first `i`
primary attempts fail with service-unavailable errors within the retry
budget and attempt `i` fails — either non-transiently or as the last
budgeted attempt — the primary model was called `i + 1` times with the
fixed prompt, `i` fixed backoff sleeps were performed, and exactly one
backup call was made with the same prompt; (b) whenever the backup
model was called and it raised, the function returns the error
description string instead of raising. -/
theorem fetch_from_gemini_retry_policy (user_query : Str)
    (primary : Str → Nat → GenResult) (backup : Str → GenResult)
    (retries : Nat) :
    (∀ i, i < retries →
      (∀ j, j < i → is503err (primary (gemini_prompt user_query) j) = true) →
      isErr (primary (gemini_prompt user_query) i) = true →
      (is503err (primary (gemini_prompt user_query) i) = false ∨
        i + 1 = retries) →
      (fetch_from_gemini user_query primary backup retries).primaryPrompts
          = List.replicate (i + 1) (gemini_prompt user_query) ∧
        (fetch_from_gemini user_query primary backup retries).sleeps = i ∧
        (fetch_from_gemini user_query primary backup retries).backupPrompts
          = [gemini_prompt user_query]) ∧
    (∀ e2, backup (gemini_prompt user_query) = .err e2 →
      (fetch_from_gemini user_query primary backup retries).backupPrompts ≠ [] →
      (fetch_from_gemini user_query primary backup retries).result
        = geminiErrStr e2) := by
  constructor
  · intro i hi h503 herr hlast
    have h := fetchAux_fail primary backup (gemini_prompt user_query)
      retries i 0 retries (by omega) (by omega)
      (fun j hj1 hj2 => h503 j (by omega))
      (by simpa using herr)
      (by simpa using hlast)
    rw [fetch_from_gemini, h]
    exact ⟨rfl, rfl, rfl⟩
  · intro e2 hb hne
    rw [fetch_from_gemini] at hne ⊢
    exact fetchAux_backup_err primary backup (gemini_prompt user_query)
      retries e2 hb retries 0 hne

/-- Witness for C4: with a primary model that fails 503 on attempt 0
and non-transiently on attempt 1, and a failing backup, the trace shows
two primary calls, one backoff sleep, one backup call with the same
prompt, and the error description result. -/
theorem fetch_from_gemini_retry_policy_witness :
    (fetch_from_gemini (strL "q")
        (fun _ n => if n = 0 then GenResult.err (strL "http 503 unavailable")
          else GenResult.err (strL "boom"))
        (fun _ => GenResult.err (strL "down")) 2).primaryPrompts
        = List.replicate 2 (gemini_prompt (strL "q")) ∧
      (fetch_from_gemini (strL "q")
        (fun _ n => if n = 0 then GenResult.err (strL "http 503 unavailable")
          else GenResult.err (strL "boom"))
        (fun _ => GenResult.err (strL "down")) 2).sleeps = 1 ∧
      (fetch_from_gemini (strL "q")
        (fun _ n => if n = 0 then GenResult.err (strL "http 503 unavailable")
          else GenResult.err (strL "boom"))
        (fun _ => GenResult.err (strL "down")) 2).backupPrompts
        = [gemini_prompt (strL "q")] ∧
      (fetch_from_gemini (strL "q")
        (fun _ n => if n = 0 then GenResult.err (strL "http 503 unavailable")
          else GenResult.err (strL "boom"))
        (fun _ => GenResult.err (strL "down")) 2).result
        = geminiErrStr (strL "down") := by
  have h := (fetch_from_gemini_retry_policy (strL "q")
      (fun _ n => if n = 0 then GenResult.err (strL "http 503 unavailable")
        else GenResult.err (strL "boom"))
      (fun _ => GenResult.err (strL "down")) 2).1 1 (by omega)
    (fun j hj => by
      have hj0 : j = 0 := by omega
      subst hj0
      decide)
    (by decide)
    (Or.inl (by decide))
  have hr := (fetch_from_gemini_retry_policy (strL "q")
      (fun _ n => if n = 0 then GenResult.err (strL "http 503 unavailable")
        else GenResult.err (strL "boom"))
      (fun _ => GenResult.err (strL "down")) 2).2 (strL "down") rfl
    (by rw [h.2.2]; simp)
  exact ⟨h.1, h.2.1, h.2.2, hr⟩

/-- C2 counterexample: a query containing a configured keyword whose
entry has an empty-string info — the keyword matches and the claim
would forbid any generation call, yet the pipeline invokes the
generation client because the matched info is falsy. -/
theorem pipeline_faq_hit_no_gemini_cex :
    entryMatches (strL "i have fever")
        (FaqEntry.dict [strL "fever"] (some [])) = true ∧
      (run_pipeline [(strL "d", FaqEntry.dict [strL "fever"] (some []))] none
        (fun _ _ => GenResult.ok (strL "llm answer"))
        (fun _ => GenResult.ok (strL "b"))
        (fun _ _ _ => none) (strL "i have fever")).geminiCalled = true := by
  constructor
  · decide
  · decide

/-- C2 (amended): for every query whose lowercase form contains a
configured keyword of some entry, provided the first matching entry's
info is a nonempty string, the pipeline's English answer is that info
and the generation client is never invoked. -/
theorem pipeline_faq_hit_no_gemini (faqs : List (Str × FaqEntry))
    (ld : Option (Str → Option Str))
    (primary : Str → Nat → GenResult) (backup : Str → GenResult)
    (tr : Str → Str → Str → Option Str) (user_input : Str)
    (p : Str × FaqEntry) (s : Str)
    (hfind : faqs.find? (fun e => entryMatches user_input e.2) = some p)
    (hinfo : entryInfo p.2 = some s) (hs : s ≠ []) :
    (run_pipeline faqs ld primary backup tr user_input).english_text = s ∧
      (run_pipeline faqs ld primary backup tr user_input).geminiCalled
        = false := by
  have hfa : find_answer_from_faqs faqs user_input = some s := by
    rw [find_answer_eq, hfind]
    simp [hinfo]
  have hse : s.isEmpty = false := isEmpty_false_of_ne hs
  simp only [run_pipeline, hfa, pyFalsy, hse]
  constructor
  · by_cases hpe : pyIn (strL "Error") s = true
    · simp [hpe, pyOrStr, hfa, hse]
    · simp [hpe, pyOrStr, hfa, hse]
  · simp

/-- Witness for C2 (amended) at a concrete knowledge base with a
nonempty info. -/
theorem pipeline_faq_hit_no_gemini_witness :
    (run_pipeline
        [(strL "d", FaqEntry.dict [strL "fever"] (some (strL "drink water")))]
        none (fun _ _ => GenResult.ok (strL "llm answer"))
        (fun _ => GenResult.ok (strL "b")) (fun _ _ _ => none)
        (strL "i have fever")).english_text = strL "drink water" ∧
      (run_pipeline
        [(strL "d", FaqEntry.dict [strL "fever"] (some (strL "drink water")))]
        none (fun _ _ => GenResult.ok (strL "llm answer"))
        (fun _ => GenResult.ok (strL "b")) (fun _ _ _ => none)
        (strL "i have fever")).geminiCalled = false :=
  pipeline_faq_hit_no_gemini
    [(strL "d", FaqEntry.dict [strL "fever"] (some (strL "drink water")))]
    none (fun _ _ => GenResult.ok (strL "llm answer"))
    (fun _ => GenResult.ok (strL "b")) (fun _ _ _ => none)
    (strL "i have fever")
    (strL "d", FaqEntry.dict [strL "fever"] (some (strL "drink water")))
    (strL "drink water") (by decide) rfl (by decide)

/-- C5: for a query with no knowledge-base match, when every primary
call raises and the backup call raises, the final English text is the
fixed apology string, the answer provenance is error_fallback, the
localized text is the translation of the apology, and it is the apology
itself when the detected language is English. -/
theorem pipeline_both_models_fail_apology (faqs : List (Str × FaqEntry))
    (ld : Option (Str → Option Str))
    (primary : Str → Nat → GenResult) (backup : Str → GenResult)
    (tr : Str → Str → Str → Option Str) (user_input : Str) (e2 : Str)
    (hkb : pyFalsy (find_answer_from_faqs faqs user_input) = true)
    (hp : ∀ p n, isErr (primary p n) = true)
    (hb : backup (gemini_prompt user_input) = .err e2) :
    (run_pipeline faqs ld primary backup tr user_input).english_text
        = apology ∧
      (run_pipeline faqs ld primary backup tr user_input).source
        = Source.error_fallback ∧
      (run_pipeline faqs ld primary backup tr user_input).localized_text
        = translate_text tr apology
            (run_pipeline faqs ld primary backup tr user_input).detected_lang ∧
      ((run_pipeline faqs ld primary backup tr user_input).detected_lang
          = strL "en" →
        (run_pipeline faqs ld primary backup tr user_input).localized_text
          = apology) := by
  have hfr := fetch2_all_err user_input primary backup e2 hp hb
  have hErr : pyIn (strL "Error")
      (fetch_from_gemini user_input primary backup 2).result = true := by
    rw [hfr]
    exact pyIn_geminiErr e2
  have hne : (fetch_from_gemini user_input primary backup 2).result.isEmpty
      = false := by
    rw [hfr]
    rfl
  have hor : pyOrStr (find_answer_from_faqs faqs user_input) apology
      = apology := pyOrStr_of_falsy apology hkb
  simp only [run_pipeline, hkb, eq_self_iff_true, if_true, ite_true,
    pyFalsy_some, Option.getD_some, hne, hErr, Bool.false_or, hor]
  refine ⟨trivial, by simp [answerSource, hkb], ?_, ?_⟩
  · by_cases hdet : detect_language ld user_input = strL "en" ∨
        detect_language ld user_input = strL "eng"
    · rw [if_pos hdet, translate_text]
      rcases hdet with h | h <;>
        rw [h, translate_textT_alias tr apology _ (by simp)]
    · rw [if_neg hdet]
      rfl
  · intro hdet
    rw [if_pos (Or.inl hdet)]

/-- Witness for C5 with concrete always-failing oracles and an English
query. -/
theorem pipeline_both_models_fail_apology_witness :
    (run_pipeline [] none (fun _ _ => GenResult.err (strL "503 down"))
        (fun _ => GenResult.err (strL "x")) (fun _ _ _ => none)
        (strL "hello")).english_text = apology ∧
      (run_pipeline [] none (fun _ _ => GenResult.err (strL "503 down"))
        (fun _ => GenResult.err (strL "x")) (fun _ _ _ => none)
        (strL "hello")).source = Source.error_fallback ∧
      (run_pipeline [] none (fun _ _ => GenResult.err (strL "503 down"))
        (fun _ => GenResult.err (strL "x")) (fun _ _ _ => none)
        (strL "hello")).localized_text = apology := by
  have h := pipeline_both_models_fail_apology [] none
    (fun _ _ => GenResult.err (strL "503 down"))
    (fun _ => GenResult.err (strL "x")) (fun _ _ _ => none)
    (strL "hello") (strL "x") rfl (fun _ _ => rfl) rfl
  exact ⟨h.1, h.2.1, h.2.2.2 (by decide)⟩

/-- C10: when the knowledge base misses, the orchestrator classifies
the generation result as a failure exactly when it is empty or contains
the substring Error; a failing result — including a legitimate answer
that merely mentions the word Error — is discarded in favour of a
re-lookup that, having missed before, yields the fixed apology string,
while any other result is kept as the English answer. -/
theorem pipeline_error_token_fallback (faqs : List (Str × FaqEntry))
    (ld : Option (Str → Option Str))
    (primary : Str → Nat → GenResult) (backup : Str → GenResult)
    (tr : Str → Str → Str → Option Str) (user_input : Str)
    (hkb : pyFalsy (find_answer_from_faqs faqs user_input) = true) :
    (((fetch_from_gemini user_input primary backup 2).result.isEmpty = true ∨
        pyIn (strL "Error")
          (fetch_from_gemini user_input primary backup 2).result = true) →
      (run_pipeline faqs ld primary backup tr user_input).english_text
          = pyOrStr (find_answer_from_faqs faqs user_input) apology ∧
        (run_pipeline faqs ld primary backup tr user_input).english_text
          = apology) ∧
    ((fetch_from_gemini user_input primary backup 2).result.isEmpty = false →
      pyIn (strL "Error")
        (fetch_from_gemini user_input primary backup 2).result = false →
      (run_pipeline faqs ld primary backup tr user_input).english_text
        = (fetch_from_gemini user_input primary backup 2).result) := by
  have hor : pyOrStr (find_answer_from_faqs faqs user_input) apology
      = apology := pyOrStr_of_falsy apology hkb
  constructor
  · intro hfail
    have hcond : ((fetch_from_gemini user_input primary backup 2).result.isEmpty ||
        pyIn (strL "Error")
          (fetch_from_gemini user_input primary backup 2).result) = true := by
      rcases hfail with h | h <;> simp [h]
    simp only [run_pipeline, hkb, eq_self_iff_true, if_true, ite_true,
      pyFalsy_some, Option.getD_some, hcond, hor]
    exact ⟨trivial, trivial⟩
  · intro hne hnoerr
    simp only [run_pipeline, hkb, eq_self_iff_true, if_true, ite_true,
      pyFalsy_some, Option.getD_some, hne, hnoerr, Bool.or_self,
      Bool.false_eq_true, if_false]

/-- Witness for C10: a generation result that merely mentions Error is
discarded for the apology, while a clean result is kept. -/
theorem pipeline_error_token_fallback_witness :
    (run_pipeline [] none
        (fun _ _ => GenResult.ok (strL "Server Error happened"))
        (fun _ => GenResult.ok (strL "b")) (fun _ _ _ => none)
        (strL "zzz")).english_text = apology ∧
      (run_pipeline [] none (fun _ _ => GenResult.ok (strL "drink fluids"))
        (fun _ => GenResult.ok (strL "b")) (fun _ _ _ => none)
        (strL "zzz")).english_text = strL "drink fluids" := by
  constructor
  · exact ((pipeline_error_token_fallback [] none
      (fun _ _ => GenResult.ok (strL "Server Error happened"))
      (fun _ => GenResult.ok (strL "b")) (fun _ _ _ => none)
      (strL "zzz") rfl).1 (Or.inr (by decide))).2
  · have h := (pipeline_error_token_fallback [] none
      (fun _ _ => GenResult.ok (strL "drink fluids"))
      (fun _ => GenResult.ok (strL "b")) (fun _ _ _ => none)
      (strL "zzz") rfl).2 (by decide) (by decide)
    rw [h]
    decide
